import Mathlib

set_option maxRecDepth 8000

/- Shallow embedding of the Chubflix Next Episode Stage (the Stage class of
src/unnamed/part_000). Strings are modelled as Lean strings; the four
JavaScript regular expressions used by extractTitleFromGreeting are
implemented directly, which is sound because the code always matches them
against a trimmed string, so the greedy/lazy backtracking cases of the
regex engine collapse to the simple scans written here (each case is noted
at its matcher). Episode indices are modelled as Int because the incoming
per-turn snapshot index is not bounds-checked by the code. Debug log
entries keep only the event name: the logged payload has type unknown in
the source and never feeds back into any logic. -/

/-- ASCII whitespace recognised by the JavaScript regex class backslash-s
and by String.prototype.trim. The exotic Unicode space code points also in
that class are not modelled; no input considered here contains them. -/
def isJsSpace (c : Char) : Bool :=
  c == ' ' || c == '\t' || c == '\n' || c == '\r' || c == '\x0b' || c == '\x0c'

/-- Model of String.prototype.trim: drop whitespace from both ends. -/
def jsTrim (l : List Char) : List Char :=
  ((l.dropWhile isJsSpace).reverse.dropWhile isJsSpace).reverse

/-- Pattern 1 of extractTitleFromGreeting, the regex anchored bold marker:
two asterisks, a nonempty run of non-asterisk characters (the capture),
then two asterisks. The character class of the capture cannot contain an
asterisk, so the greedy run is exactly the characters up to the first
asterisk and no backtracking case remains. -/
def matchBoldTitle : List Char → Option (List Char)
  | '*' :: '*' :: rest =>
    let cap := rest.takeWhile (fun c => c != '*')
    if cap.isEmpty then none
    else if (rest.drop cap.length).take 2 == ['*', '*'] then some cap
    else none
  | _ => none

/-- Pattern 2, the regex anchored heading marker: a hash, one or more
whitespace characters, then a lazy nonempty capture of non-newline
characters ending at a newline or at the end. On a trimmed subject the
whitespace run cannot extend to the end of the string, so the capture is
exactly the non-newline characters after the maximal whitespace run. -/
def matchHeadingTitle : List Char → Option (List Char)
  | '#' :: rest =>
    match rest with
    | c :: _ =>
      if isJsSpace c then
        let cap := (rest.dropWhile isJsSpace).takeWhile (fun c => c != '\n')
        if cap.isEmpty then none else some cap
      else none
    | [] => none
  | _ => none

/-- Pattern 3, the regex anchored quote marker: a double quote, a nonempty
run of non-quote characters (the capture), then a double quote. -/
def matchQuotedTitle : List Char → Option (List Char)
  | '"' :: rest =>
    let cap := rest.takeWhile (fun c => c != '"')
    if cap.isEmpty then none
    else if (rest.drop cap.length).take 1 == ['"'] then some cap
    else none
  | _ => none

/-- Pattern 4, the case-insensitive regex anchored episode header: the word
Episode, one or more whitespace characters, one or more digits, a colon,
any whitespace, then a lazy nonempty capture of non-newline characters
ending at a newline or at the end. As with pattern 2, trimmed subjects
leave no residual backtracking case. -/
def matchEpisodeHeader (t : List Char) : Option (List Char) :=
  if (t.take 7).map Char.toLower == ['e', 'p', 'i', 's', 'o', 'd', 'e'] then
    match t.drop 7 with
    | c :: _ =>
      if isJsSpace c then
        let afterWs := (t.drop 7).dropWhile isJsSpace
        let digits := afterWs.takeWhile Char.isDigit
        if digits.isEmpty then none
        else
          match afterWs.drop digits.length with
          | ':' :: rest2 =>
            let cap := (rest2.dropWhile isJsSpace).takeWhile (fun c => c != '\n')
            if cap.isEmpty then none else some cap
          | _ => none
      else none
    | [] => none
  else none

/-- Model of extractTitleFromGreeting: trim the greeting, try the four
patterns in order and return the trimmed capture of the first match;
otherwise take the first line of the trimmed text and, when it is truthy
(nonempty) and at most 50 characters long, return it with asterisk, hash
and quote characters removed and trimmed; otherwise report absence. -/
def extractTitleFromGreeting (greeting : String) : Option String :=
  let t := jsTrim greeting.data
  match matchBoldTitle t with
  | some cap => some (String.mk (jsTrim cap))
  | none =>
    match matchHeadingTitle t with
    | some cap => some (String.mk (jsTrim cap))
    | none =>
      match matchQuotedTitle t with
      | some cap => some (String.mk (jsTrim cap))
      | none =>
        match matchEpisodeHeader t with
        | some cap => some (String.mk (jsTrim cap))
        | none =>
          let firstLine := t.takeWhile (fun c => c != '\n')
          if firstLine.isEmpty then none
          else if firstLine.length ≤ 50 then
            some (String.mk (jsTrim (firstLine.filter
              (fun c => !(c == '*' || c == '#' || c == '"')))))
          else none

/-- Model of the JavaScript fallback idiom value-or-default on strings: a
missing or empty (falsy) value gives the default. Used for the character
name and for every catalog title. -/
def jsOrStr : Option String → String → String
  | some s, d => if s = ("") then d else s
  | none, d => d

/-- Titles contributed by the alternate greetings: the forEach loop of
extractEpisodeTitles with its running 0-based index, carried here as k. -/
def altTitlesFrom : Nat → List String → List String
  | _, [] => []
  | k, g :: gs =>
    jsOrStr (extractTitleFromGreeting g) (("Episode ") ++ toString (k + 2))
      :: altTitlesFrom (k + 1) gs

/-- Model of extractEpisodeTitles: the primary greeting contributes its
entry only when the field is present and nonempty (the truthiness guard of
the source), then the alternate greetings contribute theirs in order. -/
def extractEpisodeTitles (first_mes : Option String)
    (alternate_greetings : Option (List String)) : List String :=
  (match first_mes with
   | some fm =>
     if fm = ("") then []
     else [jsOrStr (extractTitleFromGreeting fm) ("Episode 1")]
   | none => []) ++ altTitlesFrom 0 (alternate_greetings.getD [])

/- State and wire shapes. The per-chat snapshot and the per-turn snapshot
are the ChatStateType and MessageStateType of the source; the per-turn
snapshot index is Option Int so that an absent or malformed index can be
modelled (the source defends against it with the value-or-zero idiom).
Of the configuration only injectContext is modelled: it is the only field
the logic reads, the other four are display-only. -/

structure ChatStateV where
  highestEpisodeReached : Int
  completed : Bool
  deriving Repr, DecidableEq

structure MsgStateV where
  currentEpisode : Option Int
  startedAt : Int
  deriving Repr, DecidableEq

structure ConfigV where
  injectContext : Bool
  deriving Repr, DecidableEq

structure CharacterInput where
  name : Option String
  first_mes : Option String
  alternate_greetings : Option (List String)
  deriving Repr, DecidableEq

/-- Construction input. chatState and messageState are the previously
persisted snapshots the host may supply; the source constructor only logs
them and never reads them into the navigation fields. -/
structure InitialData where
  characters : Option (List CharacterInput)
  chatState : Option ChatStateV
  messageState : Option MsgStateV
  config : Option ConfigV
  deriving Repr, DecidableEq

/-- In-memory state of the Stage instance: its private fields plus the
debug log (event names only). -/
structure StageState where
  currentEpisode : Int
  totalEpisodes : Int
  episodeTitles : List String
  characterName : String
  highestEpisodeReached : Int
  completed : Bool
  injectContext : Bool
  debugLog : List String
  deriving Repr, DecidableEq

/-- Shape of the value returned by beforePrompt and afterResponse. -/
structure StageResponseV where
  stateMessage : String
  messageState : MsgStateV
  chatState : ChatStateV
  modifiedMessage : Option String
  systemMessage : Option String
  deriving Repr, DecidableEq

/-- Model of addDebugLog: append the event, then keep only the last 50
entries. -/
def addDebugLog (event : String) (log : List String) : List String :=
  let l2 := log ++ [event]
  if l2.length > 50 then l2.drop (l2.length - 50) else l2

/-- Length of the alternate greeting list when it is present and an
array, zero otherwise. -/
def altLen : Option (List String) → Nat
  | some l => l.length
  | none => 0

/-- Effective injectContext flag after the spread of data.config over the
defaults (default true). -/
def injectContextOf : Option ConfigV → Bool
  | some c => c.injectContext
  | none => true

/-- Model of the constructor: the field initializers give the base state;
when a first character is present its name, episode count and titles are
filled in. The supplied chatState and messageState snapshots are only
logged, never read. -/
def mkStage (d : InitialData) : StageState :=
  let base : StageState :=
    { currentEpisode := 0
      totalEpisodes := 1
      episodeTitles := []
      characterName := ("")
      highestEpisodeReached := 0
      completed := false
      injectContext := injectContextOf d.config
      debugLog := addDebugLog ("constructor") [] }
  match d.characters.getD [] with
  | [] => base
  | c :: _ =>
    { base with
      characterName := jsOrStr c.name ("Character")
      totalEpisodes := 1 + (altLen c.alternate_greetings : Int)
      episodeTitles := extractEpisodeTitles c.first_mes c.alternate_greetings }

/-- Model of the JavaScript indexing idiom list-at-index-or-default used
for episode titles: an out-of-range index gives undefined, and undefined
or an empty string falls back to the default. -/
def jsIndexOr (l : List String) (i : Int) (d : String) : String :=
  match (if 0 ≤ i then l.get? i.toNat else none) with
  | some t => if t = ("") then d else t
  | none => d

/-- The system message literal built by beforePrompt when injectContext is
set. -/
def contextLine (s : StageState) : String :=
  ("[Chubflix Episode Context: Currently on ")
    ++ jsIndexOr s.episodeTitles s.currentEpisode
         (("Episode ") ++ toString (s.currentEpisode + 1))
    ++ (" (") ++ toString (s.currentEpisode + 1) ++ ("/")
    ++ toString s.totalEpisodes
    ++ ("). Maintain narrative continuity with previous episodes.]")

/-- The stateMessage literal shared by beforePrompt and afterResponse. -/
def stateMessageLine (s : StageState) : String :=
  ("Episode ") ++ toString (s.currentEpisode + 1) ++ ("/")
    ++ toString s.totalEpisodes

/-- Model of beforePrompt: log, optionally build the context line, emit
the turn and chat snapshots, log the response. Only the debug log of the
in-memory state changes. The timestamp of the source is passed in as now. -/
def beforePrompt (now : Int) (s : StageState) : StageState × StageResponseV :=
  let s1 := { s with debugLog := addDebugLog ("beforePrompt") s.debugLog }
  let addSystem : Option String :=
    if s1.injectContext then some (contextLine s1) else none
  let resp : StageResponseV :=
    { stateMessage := stateMessageLine s1
      messageState := { currentEpisode := some s1.currentEpisode, startedAt := now }
      chatState :=
        { highestEpisodeReached := max s1.highestEpisodeReached s1.currentEpisode
          completed := s1.completed }
      modifiedMessage := none
      systemMessage := addSystem }
  let s2 := { s1 with debugLog := addDebugLog ("beforePrompt_response") s1.debugLog }
  (s2, resp)

/-- Model of afterResponse: log, emit the turn and chat snapshots (the
emitted completed value is recomputed from the current index alone), log
the response. Only the debug log of the in-memory state changes. -/
def afterResponse (now : Int) (s : StageState) : StageState × StageResponseV :=
  let s1 := { s with debugLog := addDebugLog ("afterResponse") s.debugLog }
  let resp : StageResponseV :=
    { stateMessage := stateMessageLine s1
      messageState := { currentEpisode := some s1.currentEpisode, startedAt := now }
      chatState :=
        { highestEpisodeReached := max s1.highestEpisodeReached s1.currentEpisode
          completed := decide (s1.totalEpisodes - 1 ≤ s1.currentEpisode) }
      modifiedMessage := none
      systemMessage := none }
  let s2 := { s1 with debugLog := addDebugLog ("afterResponse_response") s1.debugLog }
  (s2, resp)

/-- Model of setState: log, then when a snapshot is present set the index
to its currentEpisode with the value-or-zero fallback. No other field is
touched. -/
def setState (st : Option MsgStateV) (s : StageState) : StageState :=
  let s1 := { s with debugLog := addDebugLog ("setState") s.debugLog }
  match st with
  | some m => { s1 with currentEpisode := m.currentEpisode.getD 0 }
  | none => s1

/-- Model of goToNextEpisode: guarded advance, raise the high-water mark,
set completed on reaching the last index; a no-op at the last index. -/
def goToNextEpisode (s : StageState) : StageState :=
  if s.currentEpisode < s.totalEpisodes - 1 then
    let cur := s.currentEpisode + 1
    { s with
      currentEpisode := cur
      highestEpisodeReached := max s.highestEpisodeReached cur
      completed := if s.totalEpisodes - 1 ≤ cur then true else s.completed
      debugLog := addDebugLog ("goToNextEpisode") s.debugLog }
  else s

/-- Model of goToPreviousEpisode: guarded retreat; a no-op at index 0,
touching neither the high-water mark nor completed. -/
def goToPreviousEpisode (s : StageState) : StageState :=
  if 0 < s.currentEpisode then
    { s with
      currentEpisode := s.currentEpisode - 1
      debugLog := addDebugLog ("goToPreviousEpisode") s.debugLog }
  else s

/-- The navigation operations quantified over by the sequence claims:
advance, retreat and the before-turn hook. -/
inductive NavOp where
  | advance
  | retreat
  | turnStart
  deriving Repr, DecidableEq

def stepOp : NavOp → StageState → StageState
  | NavOp.advance, s => goToNextEpisode s
  | NavOp.retreat, s => goToPreviousEpisode s
  | NavOp.turnStart, s => (beforePrompt 0 s).1

def runOps (ops : List NavOp) (s : StageState) : StageState :=
  ops.foldl (fun acc op => stepOp op acc) s

/-- Every state-changing operation of the Stage, for the flag-monotonicity
part of the completed policy. -/
inductive StageOp where
  | advance
  | retreat
  | beforeTurn
  | afterTurn
  | restore (m : Option MsgStateV)
  deriving DecidableEq

def applyOp : StageOp → StageState → StageState
  | StageOp.advance, s => goToNextEpisode s
  | StageOp.retreat, s => goToPreviousEpisode s
  | StageOp.beforeTurn, s => (beforePrompt 0 s).1
  | StageOp.afterTurn, s => (afterResponse 0 s).1
  | StageOp.restore m, s => setState m s

/-- Modelled from the spec: the title the ContextInjector section claims
to resolve, namely the catalog title at currentEpisode with a fallback to
a positional default only when the catalog entry is missing. Declared to
be compared with the code path jsIndexOr. -/
def specTitleAt (l : List String) (i : Int) : String :=
  match (if 0 ≤ i then l.get? i.toNat else none) with
  | some t => t
  | none => ("Episode ") ++ toString (i + 1)

/-- The end-to-end example character of the spec: primary greeting Pilot
with two alternate greetings. -/
def pilotCharacter : CharacterInput :=
  { name := some ("Chubflix")
    first_mes := some ("**Pilot**\nHello")
    alternate_greetings := some [("**Twist**\nA turn"), ("Goodbye for now")] }

def pilotData : InitialData :=
  { characters := some [pilotCharacter]
    chatState := none
    messageState := none
    config := none }

/- Helper lemmas shared by the claim theorems. -/

theorem addDebugLog_length (e : String) (l : List String) :
    (addDebugLog e l).length = min (l.length + 1) 50 := by
  simp only [addDebugLog]
  split
  · next h =>
    simp only [List.length_drop, List.length_append, List.length_singleton] at *
    omega
  · next h =>
    simp only [List.length_append, List.length_singleton] at *
    omega

theorem altTitlesFrom_length (k : Nat) (l : List String) :
    (altTitlesFrom k l).length = l.length := by
  induction l generalizing k with
  | nil => rfl
  | cons g gs ih => simp [altTitlesFrom, ih]

theorem altTitlesFrom_get? (k i : Nat) (l : List String) :
    (altTitlesFrom k l).get? i
      = (l.get? i).map
          (fun g => jsOrStr (extractTitleFromGreeting g)
            (("Episode ") ++ toString (k + i + 2))) := by
  induction l generalizing k i with
  | nil => cases i <;> rfl
  | cons g gs ih =>
    cases i with
    | zero => rfl
    | succ j =>
      simp only [altTitlesFrom, List.get?]
      rw [ih (k + 1) j]
      have : k + 1 + j = k + (j + 1) := by omega
      rw [this]

theorem beforePrompt_fst_frame (now : Int) (s : StageState) :
    ((beforePrompt now s).1.currentEpisode = s.currentEpisode)
    ∧ ((beforePrompt now s).1.totalEpisodes = s.totalEpisodes)
    ∧ ((beforePrompt now s).1.episodeTitles = s.episodeTitles)
    ∧ ((beforePrompt now s).1.characterName = s.characterName)
    ∧ ((beforePrompt now s).1.highestEpisodeReached = s.highestEpisodeReached)
    ∧ ((beforePrompt now s).1.completed = s.completed)
    ∧ ((beforePrompt now s).1.injectContext = s.injectContext) :=
  ⟨rfl, rfl, rfl, rfl, rfl, rfl, rfl⟩

theorem mkStage_core (d : InitialData) :
    (mkStage d).currentEpisode = 0
    ∧ (mkStage d).highestEpisodeReached = 0
    ∧ (mkStage d).completed = false
    ∧ 1 ≤ (mkStage d).totalEpisodes := by
  unfold mkStage
  cases d.characters.getD [] with
  | nil => exact ⟨rfl, rfl, rfl, by norm_num⟩
  | cons c rest =>
    refine ⟨rfl, rfl, rfl, ?_⟩
    show (1 : Int) ≤ 1 + (altLen c.alternate_greetings : Int)
    have : (0 : Int) ≤ (altLen c.alternate_greetings : Int) := Int.ofNat_nonneg _
    omega

theorem stepOp_totalEpisodes (op : NavOp) (s : StageState) :
    (stepOp op s).totalEpisodes = s.totalEpisodes := by
  cases op with
  | advance =>
    show (goToNextEpisode s).totalEpisodes = s.totalEpisodes
    unfold goToNextEpisode; split <;> rfl
  | retreat =>
    show (goToPreviousEpisode s).totalEpisodes = s.totalEpisodes
    unfold goToPreviousEpisode; split <;> rfl
  | turnStart => rfl

theorem stepOp_inv (op : NavOp) (s : StageState)
    (h0 : 0 ≤ s.currentEpisode) (h1 : s.currentEpisode < s.totalEpisodes) :
    0 ≤ (stepOp op s).currentEpisode
    ∧ (stepOp op s).currentEpisode < (stepOp op s).totalEpisodes := by
  cases op with
  | advance =>
    show 0 ≤ (goToNextEpisode s).currentEpisode
      ∧ (goToNextEpisode s).currentEpisode < (goToNextEpisode s).totalEpisodes
    unfold goToNextEpisode; split
    · next h => constructor <;> simp <;> omega
    · exact ⟨h0, h1⟩
  | retreat =>
    show 0 ≤ (goToPreviousEpisode s).currentEpisode
      ∧ (goToPreviousEpisode s).currentEpisode < (goToPreviousEpisode s).totalEpisodes
    unfold goToPreviousEpisode; split
    · next h => constructor <;> simp <;> omega
    · exact ⟨h0, h1⟩
  | turnStart => exact ⟨h0, h1⟩

theorem stepOp_highest_mono (op : NavOp) (s : StageState) :
    s.highestEpisodeReached ≤ (stepOp op s).highestEpisodeReached := by
  cases op with
  | advance =>
    show s.highestEpisodeReached ≤ (goToNextEpisode s).highestEpisodeReached
    unfold goToNextEpisode; split
    · simp
    · exact le_refl _
  | retreat =>
    show s.highestEpisodeReached ≤ (goToPreviousEpisode s).highestEpisodeReached
    unfold goToPreviousEpisode; split <;> exact le_refl _
  | turnStart => exact le_refl _

theorem runOps_cons (op : NavOp) (ops : List NavOp) (s : StageState) :
    runOps (op :: ops) s = runOps ops (stepOp op s) := rfl

theorem runOps_totalEpisodes (ops : List NavOp) (s : StageState) :
    (runOps ops s).totalEpisodes = s.totalEpisodes := by
  induction ops generalizing s with
  | nil => rfl
  | cons op ops ih => rw [runOps_cons, ih, stepOp_totalEpisodes]

theorem runOps_inv (ops : List NavOp) (s : StageState)
    (h0 : 0 ≤ s.currentEpisode) (h1 : s.currentEpisode < s.totalEpisodes) :
    0 ≤ (runOps ops s).currentEpisode
    ∧ (runOps ops s).currentEpisode < (runOps ops s).totalEpisodes := by
  induction ops generalizing s with
  | nil => exact ⟨h0, h1⟩
  | cons op ops ih =>
    rw [runOps_cons]
    have h := stepOp_inv op s h0 h1
    exact ih (stepOp op s) h.1 h.2

theorem runOps_highest_mono (ops : List NavOp) (s : StageState) :
    s.highestEpisodeReached ≤ (runOps ops s).highestEpisodeReached := by
  induction ops generalizing s with
  | nil => exact le_refl _
  | cons op ops ih =>
    rw [runOps_cons]
    exact le_trans (stepOp_highest_mono op s) (ih (stepOp op s))

theorem runOps_append (ops more : List NavOp) (s : StageState) :
    runOps (ops ++ more) s = runOps more (runOps ops s) := by
  simp [runOps, List.foldl_append]

/- Claim theorems. -/

/-- C3: for every construction input, including one carrying previously
persisted chat and turn snapshots, the state immediately after
construction has currentEpisode 0, highestEpisodeReached 0 and completed
false; the supplied snapshots never seed these fields (the theorem holds
for every value of those snapshot fields). -/
theorem claim_C3 (d : InitialData) :
    (mkStage d).currentEpisode = 0
    ∧ (mkStage d).highestEpisodeReached = 0
    ∧ (mkStage d).completed = false :=
  ⟨(mkStage_core d).1, (mkStage_core d).2.1, (mkStage_core d).2.2.1⟩

/-- C7: along every sequence of advance, retreat and before-turn calls from
the freshly constructed state the index stays within the catalog bounds,
the high-water mark never decreases across any extension of the sequence,
and advance at the last index and retreat at index 0 are exact no-ops. -/
theorem claim_C7 :
    (∀ (d : InitialData) (ops : List NavOp),
      0 ≤ (runOps ops (mkStage d)).currentEpisode
      ∧ (runOps ops (mkStage d)).currentEpisode < (mkStage d).totalEpisodes
      ∧ ∀ more : List NavOp,
          (runOps ops (mkStage d)).highestEpisodeReached
            ≤ (runOps (ops ++ more) (mkStage d)).highestEpisodeReached)
    ∧ (∀ s : StageState, s.totalEpisodes - 1 ≤ s.currentEpisode →
        goToNextEpisode s = s)
    ∧ (∀ s : StageState, s.currentEpisode ≤ 0 → goToPreviousEpisode s = s) := by
  refine ⟨?_, ?_, ?_⟩
  · intro d ops
    have hcore := mkStage_core d
    have hinv := runOps_inv ops (mkStage d)
      (by rw [hcore.1]) (by rw [hcore.1]; omega)
    refine ⟨hinv.1, ?_, ?_⟩
    · rw [← runOps_totalEpisodes ops (mkStage d)]; exact hinv.2
    · intro more
      rw [runOps_append]
      exact runOps_highest_mono more (runOps ops (mkStage d))
  · intro s h
    unfold goToNextEpisode
    rw [if_neg (by omega)]
  · intro s h
    unfold goToPreviousEpisode
    rw [if_neg (by omega)]

/-- Witness for C7: the boundary no-ops evaluated at concrete states that
sit at the last and at the first index. -/
theorem claim_C7_witness :
    goToNextEpisode
        { currentEpisode := 2, totalEpisodes := 3, episodeTitles := []
          characterName := ("c"), highestEpisodeReached := 2
          completed := true, injectContext := true, debugLog := [] }
      = { currentEpisode := 2, totalEpisodes := 3, episodeTitles := []
          characterName := ("c"), highestEpisodeReached := 2
          completed := true, injectContext := true, debugLog := [] }
    ∧ goToPreviousEpisode
        { currentEpisode := 0, totalEpisodes := 3, episodeTitles := []
          characterName := ("c"), highestEpisodeReached := 0
          completed := false, injectContext := true, debugLog := [] }
      = { currentEpisode := 0, totalEpisodes := 3, episodeTitles := []
          characterName := ("c"), highestEpisodeReached := 0
          completed := false, injectContext := true, debugLog := [] } :=
  ⟨claim_C7.2.1 _ (by decide), claim_C7.2.2 _ (by decide)⟩

/-- C10: afterResponse leaves every in-memory navigation and catalog field
unchanged, only the debug log grows (its length becomes the old length
plus the two logged events, capped at 50), and the returned snapshots are
computed from the unchanged state. -/
theorem claim_C10 (now : Int) (s : StageState) :
    ((afterResponse now s).1.currentEpisode = s.currentEpisode)
    ∧ ((afterResponse now s).1.highestEpisodeReached = s.highestEpisodeReached)
    ∧ ((afterResponse now s).1.completed = s.completed)
    ∧ ((afterResponse now s).1.totalEpisodes = s.totalEpisodes)
    ∧ ((afterResponse now s).1.episodeTitles = s.episodeTitles)
    ∧ ((afterResponse now s).1.characterName = s.characterName)
    ∧ ((afterResponse now s).1.injectContext = s.injectContext)
    ∧ ((afterResponse now s).1.debugLog.length = min (s.debugLog.length + 2) 50)
    ∧ ((afterResponse now s).2.stateMessage = stateMessageLine s)
    ∧ ((afterResponse now s).2.messageState.currentEpisode = some s.currentEpisode)
    ∧ ((afterResponse now s).2.messageState.startedAt = now)
    ∧ ((afterResponse now s).2.chatState.highestEpisodeReached
        = max s.highestEpisodeReached s.currentEpisode)
    ∧ ((afterResponse now s).2.chatState.completed
        = decide (s.totalEpisodes - 1 ≤ s.currentEpisode))
    ∧ ((afterResponse now s).2.systemMessage = none) := by
  refine ⟨rfl, rfl, rfl, rfl, rfl, rfl, rfl, ?_, rfl, rfl, rfl, rfl, rfl, rfl⟩
  show (addDebugLog ("afterResponse_response")
      (addDebugLog ("afterResponse") s.debugLog)).length
    = min (s.debugLog.length + 2) 50
  rw [addDebugLog_length, addDebugLog_length]
  omega

/-- Counterexample to C2 as stated: after a jump to index 2 the before-turn
hook leaves the in-memory high-water mark at 0, strictly below the index,
so the hook does not raise the stored highestEpisodeReached. -/
theorem claim_C2_counterexample :
    ((beforePrompt 0 (setState (some { currentEpisode := some 2, startedAt := 0 })
        (mkStage pilotData))).1.currentEpisode = 2)
    ∧ ((beforePrompt 0 (setState (some { currentEpisode := some 2, startedAt := 0 })
        (mkStage pilotData))).1.highestEpisodeReached = 0)
    ∧ ¬((beforePrompt 0 (setState (some { currentEpisode := some 2, startedAt := 0 })
        (mkStage pilotData))).1.currentEpisode
          ≤ (beforePrompt 0 (setState (some { currentEpisode := some 2, startedAt := 0 })
        (mkStage pilotData))).1.highestEpisodeReached) := by
  refine ⟨by decide, by decide, by decide⟩

/-- C2 amended: the before-turn hook does not change currentEpisode and
leaves the in-memory highestEpisodeReached unchanged as well; it is the
emitted chat snapshot that carries the raised value
max(highestEpisodeReached, currentEpisode), which is at least
currentEpisode. -/
theorem claim_C2 (now : Int) (s : StageState) :
    ((beforePrompt now s).1.currentEpisode = s.currentEpisode)
    ∧ ((beforePrompt now s).1.highestEpisodeReached = s.highestEpisodeReached)
    ∧ ((beforePrompt now s).2.chatState.highestEpisodeReached
        = max s.highestEpisodeReached s.currentEpisode)
    ∧ (s.currentEpisode ≤ (beforePrompt now s).2.chatState.highestEpisodeReached) :=
  ⟨rfl, rfl, rfl, le_max_right _ _⟩

/-- C8: a restore carrying a turn snapshot sets the index directly to the
snapshot value without bounds validation, treats an absent index as 0, and
leaves the high-water mark and the completed flag unchanged. -/
theorem claim_C8 (s : StageState) (m : MsgStateV) :
    (∀ v : Int, m.currentEpisode = some v → (setState (some m) s).currentEpisode = v)
    ∧ (m.currentEpisode = none → (setState (some m) s).currentEpisode = 0)
    ∧ ((setState (some m) s).highestEpisodeReached = s.highestEpisodeReached)
    ∧ ((setState (some m) s).completed = s.completed) := by
  refine ⟨?_, ?_, rfl, rfl⟩
  · intro v hv
    show m.currentEpisode.getD 0 = v
    rw [hv]; rfl
  · intro hv
    show m.currentEpisode.getD 0 = 0
    rw [hv]; rfl

/-- Witness for C8: an out-of-range index 99 on the three-episode Pilot
catalog is accepted as given while the other fields keep their values. -/
theorem claim_C8_witness :
    (({ currentEpisode := some 99, startedAt := 0 } : MsgStateV).currentEpisode
        = some 99)
    ∧ ((setState (some { currentEpisode := some 99, startedAt := 0 })
        (mkStage pilotData)).currentEpisode = 99)
    ∧ ((setState (some { currentEpisode := some 99, startedAt := 0 })
        (mkStage pilotData)).completed = (mkStage pilotData).completed) :=
  ⟨rfl,
   (claim_C8 (mkStage pilotData) { currentEpisode := some 99, startedAt := 0 }).1
     99 rfl,
   (claim_C8 (mkStage pilotData) { currentEpisode := some 99, startedAt := 0 }).2.2.2⟩

/-- Counterexample to C1 as stated: on the three-episode Pilot catalog,
advance twice (the stored completed flag becomes true), retreat once, then
run the after-model-call hook. The stored flag is still true, yet the
emitted chat-snapshot completed value is false, so the emitted value is
not the logical OR of the recomputation and its previous value and does
not remain true after the index decreases. -/
theorem claim_C1_counterexample :
    ((goToPreviousEpisode (goToNextEpisode (goToNextEpisode
        (mkStage pilotData)))).completed = true)
    ∧ ((afterResponse 0 (goToPreviousEpisode (goToNextEpisode (goToNextEpisode
        (mkStage pilotData))))).2.chatState.completed = false) :=
  ⟨by decide, by decide⟩

/-- C1 amended: the after-model-call hook emits a chat-snapshot completed
value equal to the bare recomputation currentEpisode at or past the last
index, computed from the current index alone and not combined with the
stored flag, so the emitted value reverts to false when the index has
decreased; the in-memory flag itself is untouched by the hook and no
operation ever resets it to false once set (advance is what sets it, on
reaching the last index). -/
theorem claim_C1 (now : Int) (s : StageState) :
    ((afterResponse now s).2.chatState.completed
      = decide (s.totalEpisodes - 1 ≤ s.currentEpisode))
    ∧ ((afterResponse now s).1.completed = s.completed)
    ∧ (∀ op : StageOp, s.completed = true → (applyOp op s).completed = true) := by
  refine ⟨rfl, rfl, ?_⟩
  intro op h
  cases op with
  | advance =>
    show (goToNextEpisode s).completed = true
    unfold goToNextEpisode
    split
    · simp [h]
    · exact h
  | retreat =>
    show (goToPreviousEpisode s).completed = true
    unfold goToPreviousEpisode
    split <;> exact h
  | beforeTurn => exact h
  | afterTurn => exact h
  | restore m =>
    show (setState m s).completed = true
    cases m <;> exact h

/-- Witness for C1: a retreat from a completed concrete state keeps the
stored flag true. -/
theorem claim_C1_witness :
    (applyOp StageOp.retreat
      { currentEpisode := 1, totalEpisodes := 2, episodeTitles := []
        characterName := ("c"), highestEpisodeReached := 1
        completed := true, injectContext := true, debugLog := [] }).completed
      = true :=
  (claim_C1 0 _).2.2 StageOp.retreat rfl

/-- C9: construction degrades gracefully rather than failing: with a main
character whose alternate greeting data is missing or not an array the
catalog collapses to the single synthesized episode (totalEpisodes 1), and
a missing or empty character name is replaced by the fixed placeholder. -/
theorem claim_C9 (d : InitialData) (c : CharacterInput)
    (rest : List CharacterInput) (hc : d.characters = some (c :: rest))
    (halt : c.alternate_greetings = none) :
    (mkStage d).totalEpisodes = 1
    ∧ ((c.name = none ∨ c.name = some ("")) →
        (mkStage d).characterName = ("Character")) := by
  unfold mkStage
  rw [hc]
  show (1 : Int) + (altLen c.alternate_greetings : Int) = 1
    ∧ ((c.name = none ∨ c.name = some ("")) → jsOrStr c.name ("Character") = ("Character"))
  constructor
  · rw [halt]; rfl
  · intro h
    rcases h with h | h <;> rw [h] <;> rfl

/-- Nameless character with no alternate greeting list, for the C9
witness. -/
def namelessCharacter : CharacterInput :=
  { name := none
    first_mes := some ("Hello")
    alternate_greetings := none }

def namelessData : InitialData :=
  { characters := some [namelessCharacter]
    chatState := none
    messageState := none
    config := none }

/-- Witness for C9: a concrete character with no name and no alternate
greeting list yields the single-episode catalog and the placeholder name. -/
theorem claim_C9_witness :
    ((mkStage namelessData).totalEpisodes = 1)
    ∧ ((mkStage namelessData).characterName = ("Character")) :=
  ⟨(claim_C9 namelessData namelessCharacter [] rfl rfl).1,
   (claim_C9 namelessData namelessCharacter [] rfl rfl).2 (Or.inl rfl)⟩

/-- Counterexample to C4 as stated: on the primary greeting of two
asterisks, a space and two asterisks, the extractor does not report
absence but returns the empty title, and the catalog entry is the
positional default rather than that extracted title. -/
theorem claim_C4_counterexample :
    (extractTitleFromGreeting ("** **") = some (""))
    ∧ (extractEpisodeTitles (some ("** **")) (some []) = [("Episode 1")]) :=
  ⟨by decide, by decide⟩

/-- C4 amended: for every character whose primary greeting is present and
nonempty, the catalog has length exactly one plus the number of alternate
greetings, in input order; entry 0 is the extracted primary title when
that title is present and nonempty and the default Episode 1 when
extraction reports absence or an empty title, and the entry at position
i+1 is the extracted title of alternate i when present and nonempty and
the default Episode i+2 otherwise. -/
theorem claim_C4 (fm : String) (alts : Option (List String)) (hfm : fm ≠ ("")) :
    ((extractEpisodeTitles (some fm) alts).length = 1 + altLen alts)
    ∧ ((∃ t, extractTitleFromGreeting fm = some t ∧ t ≠ ("")
          ∧ (extractEpisodeTitles (some fm) alts).get? 0 = some t)
       ∨ ((extractTitleFromGreeting fm = none
            ∨ extractTitleFromGreeting fm = some (""))
          ∧ (extractEpisodeTitles (some fm) alts).get? 0 = some ("Episode 1")))
    ∧ (∀ (i : Nat) (g : String), (alts.getD []).get? i = some g →
        ((∃ t, extractTitleFromGreeting g = some t ∧ t ≠ ("")
            ∧ (extractEpisodeTitles (some fm) alts).get? (i + 1) = some t)
         ∨ ((extractTitleFromGreeting g = none
              ∨ extractTitleFromGreeting g = some (""))
            ∧ (extractEpisodeTitles (some fm) alts).get? (i + 1)
                = some (("Episode ") ++ toString (i + 2))))) := by
  have hlist : extractEpisodeTitles (some fm) alts
      = jsOrStr (extractTitleFromGreeting fm) ("Episode 1")
          :: altTitlesFrom 0 (alts.getD []) := by
    show (if fm = ("") then []
        else [jsOrStr (extractTitleFromGreeting fm) ("Episode 1")])
      ++ altTitlesFrom 0 (alts.getD [])
      = jsOrStr (extractTitleFromGreeting fm) ("Episode 1")
        :: altTitlesFrom 0 (alts.getD [])
    rw [if_neg hfm]
    rfl
  refine ⟨?_, ?_, ?_⟩
  · rw [hlist]
    simp only [List.length_cons, altTitlesFrom_length]
    cases alts with
    | none => rfl
    | some l => simp [altLen, Nat.add_comm]
  · rw [hlist]
    cases hext : extractTitleFromGreeting fm with
    | none => exact Or.inr ⟨Or.inl rfl, by simp [jsOrStr]⟩
    | some t =>
      by_cases ht : t = ("")
      · refine Or.inr ⟨Or.inr (by rw [← ht]), ?_⟩
        simp [jsOrStr, ht]
      · exact Or.inl ⟨t, rfl, ht, by simp [jsOrStr, ht]⟩
  · intro i g hg
    have hidx : (extractEpisodeTitles (some fm) alts).get? (i + 1)
        = some (jsOrStr (extractTitleFromGreeting g)
            (("Episode ") ++ toString (i + 2))) := by
      rw [hlist]
      show (altTitlesFrom 0 (alts.getD [])).get? i
        = some (jsOrStr (extractTitleFromGreeting g) (("Episode ") ++ toString (i + 2)))
      rw [altTitlesFrom_get?, hg]
      simp
    cases hext : extractTitleFromGreeting g with
    | none =>
      refine Or.inr ⟨Or.inl rfl, ?_⟩
      rw [hidx, hext]
      simp [jsOrStr]
    | some t =>
      by_cases ht : t = ("")
      · refine Or.inr ⟨Or.inr (by rw [← ht]), ?_⟩
        rw [hidx, hext]
        simp [jsOrStr, ht]
      · refine Or.inl ⟨t, rfl, ht, ?_⟩
        rw [hidx, hext]
        simp [jsOrStr, ht]

/-- Witness for C4: the Pilot primary greeting with the single alternate
greeting x gives the two-entry catalog whose second entry is the extracted
alternate title. -/
theorem claim_C4_witness :
    ((extractEpisodeTitles (some ("**Pilot**\nHello")) (some [("x")])).length
        = 1 + altLen (some [("x")]))
    ∧ ((extractEpisodeTitles (some ("**Pilot**\nHello")) (some [("x")])).get? (0 + 1)
        = some ("x")) := by
  have h := claim_C4 ("**Pilot**\nHello") (some [("x")]) (by decide)
  refine ⟨h.1, ?_⟩
  have h3 := h.2.2 0 ("x") (by decide)
  have hx : extractTitleFromGreeting ("x") = some ("x") := by decide
  rcases h3 with ⟨t, ht, hne, hg⟩ | ⟨habs, hg⟩
  · rw [hx] at ht
    rw [← Option.some.inj ht] at hg
    exact hg
  · exfalso
    rcases habs with h1 | h1 <;> rw [hx] at h1
    · exact Option.noConfusion h1
    · exact absurd (Option.some.inj h1) (by decide)

/-- Absence of all four title marker patterns on the trimmed input, the
premise of the fallback clause of the extractor. -/
def noTitleMarker (g : String) : Prop :=
  matchBoldTitle (jsTrim g.data) = none
  ∧ matchHeadingTitle (jsTrim g.data) = none
  ∧ matchQuotedTitle (jsTrim g.data) = none
  ∧ matchEpisodeHeader (jsTrim g.data) = none

instance (g : String) : Decidable (noTitleMarker g) := by
  unfold noTitleMarker
  infer_instance

/-- Counterexample to C5 as stated: the empty greeting matches no pattern
and its trimmed first line is empty, hence at most 50 characters, yet the
extractor reports absence instead of returning the stripped line. -/
theorem claim_C5_counterexample :
    noTitleMarker ("")
    ∧ (((jsTrim ("").data).takeWhile (fun c => c != '\n')).length ≤ 50)
    ∧ (extractTitleFromGreeting ("") = none) :=
  ⟨by decide, by decide, by decide⟩

/-- C5 amended: the four pattern classes give the exact trimmed captures of
the claim; for any input matching no pattern whose trimmed first line is
nonempty and at most 50 characters the extractor returns that line with
asterisk, hash and quote characters stripped and trimmed; and for any
pattern-free input whose first line exceeds 50 characters it reports
absence. Empty (or all-whitespace) input also reports absence. -/
theorem claim_C5 :
    (extractTitleFromGreeting ("**Coffee Shop Confession**\nHi there")
      = some ("Coffee Shop Confession"))
    ∧ (extractTitleFromGreeting ("# Pilot\nWelcome") = some ("Pilot"))
    ∧ (extractTitleFromGreeting ("\"Runaway\"\nScene.") = some ("Runaway"))
    ∧ (extractTitleFromGreeting ("Episode 3: The Reveal") = some ("The Reveal"))
    ∧ (∀ g : String, noTitleMarker g →
        ((((jsTrim g.data).takeWhile (fun c => c != '\n')) ≠ [] →
          ((jsTrim g.data).takeWhile (fun c => c != '\n')).length ≤ 50 →
            extractTitleFromGreeting g
              = some (String.mk (jsTrim
                  (((jsTrim g.data).takeWhile (fun c => c != '\n')).filter
                    (fun c => !(c == '*' || c == '#' || c == '"'))))))
         ∧ (50 < ((jsTrim g.data).takeWhile (fun c => c != '\n')).length →
             extractTitleFromGreeting g = none))) := by
  refine ⟨by decide, by decide, by decide, by decide, ?_⟩
  intro g h
  obtain ⟨h1, h2, h3, h4⟩ := h
  constructor
  · intro hne hlen
    have hemp : ((jsTrim g.data).takeWhile (fun c => c != '\n')).isEmpty = false := by
      cases hcase : (jsTrim g.data).takeWhile (fun c => c != '\n') with
      | nil => exact absurd hcase hne
      | cons a l => rfl
    simp only [extractTitleFromGreeting, h1, h2, h3, h4, hemp,
      Bool.false_eq_true, if_false, if_pos hlen]
  · intro hlen
    have hemp : ((jsTrim g.data).takeWhile (fun c => c != '\n')).isEmpty = false := by
      cases hcase : (jsTrim g.data).takeWhile (fun c => c != '\n') with
      | nil => rw [hcase] at hlen; simp at hlen
      | cons a l => rfl
    simp only [extractTitleFromGreeting, h1, h2, h3, h4, hemp,
      Bool.false_eq_true, if_false, if_neg (by omega : ¬((jsTrim g.data).takeWhile
        (fun c => c != '\n')).length ≤ 50)]

/-- Witness for C5: the fallback clause applied to a short plain line. -/
theorem claim_C5_witness :
    noTitleMarker ("Just a short line of text")
    ∧ (extractTitleFromGreeting ("Just a short line of text")
        = some ("Just a short line of text")) :=
  ⟨by decide,
   ((claim_C5.2.2.2.2 ("Just a short line of text") (by decide)).1
     (by decide) (by decide)).trans (by decide)⟩

/- Supporting lemmas for the context injection claim. -/

theorem jsOrStr_ne_empty (v : Option String) (d : String) (hd : d ≠ ("")) :
    jsOrStr v d ≠ ("") := by
  cases v with
  | none => exact hd
  | some s =>
    show (if s = ("") then d else s) ≠ ("")
    split
    · exact hd
    · next h => exact h

theorem episodeDefault_ne_empty (k : Nat) :
    (("Episode ") ++ toString (k + 2)) ≠ ("") := by
  intro h
  have hlen : (("Episode ") ++ toString (k + 2)).length = 0 := by rw [h]; rfl
  rw [String.length_append] at hlen
  have h8 : ("Episode " : String).length = 8 := rfl
  omega

theorem altTitlesFrom_ne_empty (k : Nat) (l : List String) :
    ("") ∉ altTitlesFrom k l := by
  induction l generalizing k with
  | nil => simp [altTitlesFrom]
  | cons g gs ih =>
    simp only [altTitlesFrom, List.mem_cons]
    rintro (h | h)
    · exact jsOrStr_ne_empty (extractTitleFromGreeting g) _
        (episodeDefault_ne_empty k) h.symm
    · exact ih (k + 1) h

theorem jsIndexOr_eq_specTitleAt (l : List String) (i : Int)
    (h : ∀ t ∈ l, t ≠ ("")) :
    jsIndexOr l i (("Episode ") ++ toString (i + 1)) = specTitleAt l i := by
  unfold jsIndexOr specTitleAt
  cases hidx : (if 0 ≤ i then l.get? i.toNat else none) with
  | none => rfl
  | some t =>
    have ht : t ∈ l := by
      by_cases h0 : 0 ≤ i
      · rw [if_pos h0] at hidx
        exact List.get?_mem hidx
      · rw [if_neg h0] at hidx
        exact absurd hidx (by simp)
    show (if t = ("") then ("Episode ") ++ toString (i + 1) else t) = t
    rw [if_neg (h t ht)]

/-- The Pilot data with the context flag turned off, for the C6 witness. -/
def noInjectData : InitialData :=
  { pilotData with config := some { injectContext := false } }

/-- C6: the system message is absent when injectContext is off; when it is
on it is exactly the context literal whose title is the catalog title at
the current index with the positional fallback when the entry is missing
(the comparison with the spec-side title resolution specTitleAt holds on
every catalog whose entries are nonempty, and the third conjunct shows the
construction never produces an empty title); on the three-episode Pilot
catalog at index 0 it is the exact Pilot string of the claim. -/
theorem claim_C6 :
    (∀ (now : Int) (s : StageState), s.injectContext = false →
      (beforePrompt now s).2.systemMessage = none)
    ∧ (∀ (now : Int) (s : StageState), s.injectContext = true →
        (∀ t ∈ s.episodeTitles, t ≠ ("")) →
        (beforePrompt now s).2.systemMessage
          = some (("[Chubflix Episode Context: Currently on ")
              ++ specTitleAt s.episodeTitles s.currentEpisode
              ++ (" (") ++ toString (s.currentEpisode + 1) ++ ("/")
              ++ toString s.totalEpisodes
              ++ ("). Maintain narrative continuity with previous episodes.]")))
    ∧ (∀ (fm : Option String) (alts : Option (List String)),
        ("") ∉ extractEpisodeTitles fm alts)
    ∧ ((beforePrompt 0 (mkStage pilotData)).2.systemMessage
        = some ("[Chubflix Episode Context: Currently on Pilot (1/3). Maintain narrative continuity with previous episodes.]")) := by
  refine ⟨?_, ?_, ?_, by decide⟩
  · intro now s h
    show (if s.injectContext = true then some (contextLine
        { s with debugLog := addDebugLog ("beforePrompt") s.debugLog }) else none)
      = none
    rw [h]
    simp
  · intro now s h hne
    show (if s.injectContext = true then some (contextLine
        { s with debugLog := addDebugLog ("beforePrompt") s.debugLog }) else none)
      = _
    rw [h, if_pos rfl]
    show some (contextLine s) = _
    unfold contextLine
    rw [jsIndexOr_eq_specTitleAt s.episodeTitles s.currentEpisode hne]
  · intro fm alts
    unfold extractEpisodeTitles
    rw [List.mem_append]
    rintro (h | h)
    · cases fm with
      | none => simp at h
      | some f =>
        have h2 : ("") ∈ (if f = ("") then []
            else [jsOrStr (extractTitleFromGreeting f) ("Episode 1")]) := h
        by_cases hf : f = ("")
        · rw [if_pos hf] at h2
          simp at h2
        · rw [if_neg hf] at h2
          simp only [List.mem_singleton] at h2
          exact jsOrStr_ne_empty (extractTitleFromGreeting f) _ (by decide) h2.symm
    · exact altTitlesFrom_ne_empty 0 (alts.getD []) h

/-- Witness for C6: with the flag off the constructed Pilot stage emits no
system message, and with the flag on it emits the exact Pilot context
string. -/
theorem claim_C6_witness :
    ((mkStage noInjectData).injectContext = false)
    ∧ ((beforePrompt 0 (mkStage noInjectData)).2.systemMessage = none)
    ∧ ((beforePrompt 0 (mkStage pilotData)).2.systemMessage
        = some ("[Chubflix Episode Context: Currently on Pilot (1/3). Maintain narrative continuity with previous episodes.]")) :=
  ⟨by decide, claim_C6.1 0 (mkStage noInjectData) (by decide),
   (claim_C6.2.1 0 (mkStage pilotData) (by decide) (by decide)).trans (by decide)⟩
